import Mathlib

/-!
Shallow embedding of the logic core of `src/src/components/pages/Aqi.tsx`
(the only source file of the repository): the health-advice classifier
`getHealthAdvice`, the cigarette-equivalent estimator
`getCigaretteEquivalent`, the favorites-list operations `toggleFavorite`
and `removeFavorite`, the favorites state initializer, and the derived
`advice` value.  JavaScript numbers are modelled by ℚ; the `null` value of
`number | null` is modelled by `Option`.
-/

/-- The record returned by `getHealthAdvice` (fields `level`, `action`, `mask`). -/
structure HealthAdvice where
  level : String
  action : String
  mask : Bool
deriving DecidableEq

/-- `getCigaretteEquivalent` (Aqi.tsx lines 14-23): step function from the
AQI (or `null`) to a cigarette count. -/
def getCigaretteEquivalent (aqi : Option ℚ) : ℚ :=
  match aqi with
  | none => 0
  | some aqi =>
    if aqi ≤ 50 then 0
    else if aqi ≤ 100 then 2
    else if aqi ≤ 200 then 5
    else if aqi ≤ 300 then 8
    else if aqi ≤ 400 then 13
    else 13

/-- `getHealthAdvice` (Aqi.tsx lines 49-90): maps an AQI number to a severity
level, an advisory string and a mask recommendation.  The action strings are
copied byte-for-byte from the source file. -/
def getHealthAdvice (aqi : ℚ) : HealthAdvice :=
  if aqi ≤ 50 then
    { level := "Good",
      action := "Air quality is good ‚Äî enjoy outdoor activities.",
      mask := false }
  else if aqi ≤ 100 then
    { level := "Moderate",
      action := "Some sensitive people should reduce strenuous outdoor activity.",
      mask := false }
  else if aqi ≤ 150 then
    { level := "Unhealthy for Sensitive Groups",
      action := "People with respiratory conditions should limit outdoor exposure. Consider wearing an N95 for long time outdoors.",
      mask := true }
  else if aqi ≤ 200 then
    { level := "Unhealthy",
      action := "Avoid extended outdoor exertion. Use an N95/KN95 mask outdoors.",
      mask := true }
  else if aqi ≤ 300 then
    { level := "Very Unhealthy",
      action := "Stay indoors and use air purifiers if possible. Masks strongly recommended outdoors.",
      mask := true }
  else
    { level := "Hazardous",
      action := "Remain indoors, avoid all outdoor activity. Seek medical advice if symptoms occur.",
      mask := true }

/-- The derived `advice` value (Aqi.tsx line 289):
`aqi !== null ? getHealthAdvice(aqi) : null`. -/
def advice (aqi : Option ℚ) : Option HealthAdvice :=
  match aqi with
  | some v => some (getHealthAdvice v)
  | none => none

/-- The level string rendered next to the gauge (Aqi.tsx line 401):
`aqi !== null ? getHealthAdvice(aqi).level : ""`. -/
def displayedLevel (aqi : Option ℚ) : String :=
  match aqi with
  | some v => (getHealthAdvice v).level
  | none => ""

/-- `toggleFavorite` (Aqi.tsx lines 272-277), as the pure state update applied
to the previous favorites list:
`prev.includes(name) ? prev.filter(p => p !== name) : [name, ...prev].slice(0, 10)`. -/
def toggleFavorite (name : String) (prev : List String) : List String :=
  if name ∈ prev then prev.filter (fun p => p ≠ name)
  else (name :: prev).take 10

/-- `removeFavorite` (Aqi.tsx lines 279-281), as the pure state update:
`prev.filter(p => p !== name)`. -/
def removeFavorite (name : String) (prev : List String) : List String :=
  prev.filter (fun p => p ≠ name)

/-- JSON values, as `JSON.parse` can return them (objects are not needed for
the stored favorites key). -/
inductive Json where
  | null : Json
  | bool : Bool → Json
  | num : ℚ → Json
  | str : String → Json
  | arr : List Json → Json

/-- The favorites state initializer (Aqi.tsx lines 111-118):
`try { const raw = localStorage.getItem(STORAGE_KEY); return raw ? JSON.parse(raw) : []; } catch { return []; }`.
`raw` is the stored string or `none` when the key is absent; the truthiness
test `raw ?` also sends the empty string to `[]`; a parse failure (the
`catch`) yields `[]`; otherwise the parsed value is returned unchecked.
The platform parser `JSON.parse` is an abstract parameter. -/
def favoritesInit (parse : String → Except String Json) (raw : Option String) : Json :=
  match raw with
  | none => Json.arr []
  | some s =>
    if s = "" then Json.arr []
    else
      match parse s with
      | Except.ok v => v
      | Except.error _ => Json.arr []

/-- Modelled from the spec: the platform JSON parser (`JSON.parse`), which is
not part of this repository.  A finite model giving the standard results on
the concrete strings used in the theorems below, and a syntax error
elsewhere. -/
def jsonParse (s : String) : Except String Json :=
  if s = "null" then Except.ok Json.null
  else if s = "42" then Except.ok (Json.num 42)
  else if s = "[]" then Except.ok (Json.arr [])
  else Except.error "SyntaxError"

/-- `getCigaretteEquivalent` on a present reading unfolds to its if-chain. -/
lemma getCigaretteEquivalent_some (v : ℚ) :
    getCigaretteEquivalent (some v) =
      if v ≤ 50 then 0 else if v ≤ 100 then 2 else if v ≤ 200 then 5
      else if v ≤ 300 then 8 else if v ≤ 400 then 13 else 13 := rfl

/-- C1: for every index v with 0 ≤ v ≤ 50 the classifier returns level "Good"
with mask=false; for every w with 151 ≤ w ≤ 200 it returns level "Unhealthy"
with mask=true; getHealthAdvice 75 is "Moderate" with mask=false and
getHealthAdvice 250 is "Very Unhealthy" with mask=true. -/
theorem getHealthAdvice_bands (v w : ℚ) (_hv0 : 0 ≤ v) (hv : v ≤ 50)
    (hw1 : 151 ≤ w) (hw2 : w ≤ 200) :
    ((getHealthAdvice v).level = "Good" ∧ (getHealthAdvice v).mask = false) ∧
    ((getHealthAdvice w).level = "Unhealthy" ∧ (getHealthAdvice w).mask = true) ∧
    ((getHealthAdvice 75).level = "Moderate" ∧ (getHealthAdvice 75).mask = false) ∧
    ((getHealthAdvice 250).level = "Very Unhealthy" ∧ (getHealthAdvice 250).mask = true) := by
  refine ⟨?_, ?_, by decide, by decide⟩
  · unfold getHealthAdvice
    rw [if_pos hv]
    exact ⟨rfl, rfl⟩
  · unfold getHealthAdvice
    rw [if_neg (by push_neg; linarith), if_neg (by push_neg; linarith),
      if_neg (by push_neg; linarith), if_pos hw2]
    exact ⟨rfl, rfl⟩

/-- Witness for C1 at v = 10 and w = 160. -/
theorem getHealthAdvice_bands_witness :
    ((getHealthAdvice 10).level = "Good" ∧ (getHealthAdvice 10).mask = false) ∧
    ((getHealthAdvice 160).level = "Unhealthy" ∧ (getHealthAdvice 160).mask = true) ∧
    ((getHealthAdvice 75).level = "Moderate" ∧ (getHealthAdvice 75).mask = false) ∧
    ((getHealthAdvice 250).level = "Very Unhealthy" ∧ (getHealthAdvice 250).mask = true) :=
  getHealthAdvice_bands 10 160 (by norm_num) (by norm_num) (by norm_num) (by norm_num)

/-- C2: the estimator is the fixed step function 0 / 2 / 5 / 8 / 13 over the
band boundaries 50, 100, 200, 300, with null mapped to 0, and the listed
concrete values. -/
theorem getCigaretteEquivalent_step (a b c d e : ℚ)
    (ha : a ≤ 50) (hb1 : 50 < b) (hb2 : b ≤ 100) (hc1 : 100 < c) (hc2 : c ≤ 200)
    (hd1 : 200 < d) (hd2 : d ≤ 300) (he : 300 < e) :
    getCigaretteEquivalent (some a) = 0 ∧ getCigaretteEquivalent (some b) = 2 ∧
    getCigaretteEquivalent (some c) = 5 ∧ getCigaretteEquivalent (some d) = 8 ∧
    getCigaretteEquivalent (some e) = 13 ∧ getCigaretteEquivalent none = 0 ∧
    getCigaretteEquivalent (some 0) = 0 ∧ getCigaretteEquivalent (some 50) = 0 ∧
    getCigaretteEquivalent (some 51) = 2 ∧ getCigaretteEquivalent (some 100) = 2 ∧
    getCigaretteEquivalent (some 101) = 5 ∧ getCigaretteEquivalent (some 300) = 8 ∧
    getCigaretteEquivalent (some 301) = 13 ∧ getCigaretteEquivalent (some 10000) = 13 := by
  refine ⟨?_, ?_, ?_, ?_, ?_, rfl, by decide, by decide, by decide, by decide,
    by decide, by decide, by decide, by decide⟩ <;>
    rw [getCigaretteEquivalent_some] <;> split_ifs <;> first | rfl | linarith

/-- Witness for C2 at a=50, b=51, c=101, d=201, e=301. -/
theorem getCigaretteEquivalent_step_witness :
    getCigaretteEquivalent (some 50) = 0 ∧ getCigaretteEquivalent (some 51) = 2 ∧
    getCigaretteEquivalent (some 101) = 5 ∧ getCigaretteEquivalent (some 201) = 8 ∧
    getCigaretteEquivalent (some 301) = 13 ∧ getCigaretteEquivalent none = 0 ∧
    getCigaretteEquivalent (some 0) = 0 ∧ getCigaretteEquivalent (some 50) = 0 ∧
    getCigaretteEquivalent (some 51) = 2 ∧ getCigaretteEquivalent (some 100) = 2 ∧
    getCigaretteEquivalent (some 101) = 5 ∧ getCigaretteEquivalent (some 300) = 8 ∧
    getCigaretteEquivalent (some 301) = 13 ∧ getCigaretteEquivalent (some 10000) = 13 :=
  getCigaretteEquivalent_step 50 51 101 201 301 (by norm_num) (by norm_num) (by norm_num)
    (by norm_num) (by norm_num) (by norm_num) (by norm_num) (by norm_num)

/-- C3: band boundaries are inclusive on the lower tier: each upper bound in
50, 100, 150, 200, 300 is classified into the band ending there, and
getHealthAdvice 50 and getHealthAdvice 51 have different levels. -/
theorem getHealthAdvice_boundary_inclusive :
    (getHealthAdvice 50).level = "Good" ∧
    (getHealthAdvice 100).level = "Moderate" ∧
    (getHealthAdvice 150).level = "Unhealthy for Sensitive Groups" ∧
    (getHealthAdvice 200).level = "Unhealthy" ∧
    (getHealthAdvice 300).level = "Very Unhealthy" ∧
    (getHealthAdvice 50).level ≠ (getHealthAdvice 51).level := by decide

/-- C4: the mask flag is false exactly for the levels "Good" and "Moderate",
and mask=false forces v ≤ 100. -/
theorem getHealthAdvice_mask_iff (v : ℚ) :
    ((getHealthAdvice v).mask = false ↔
      ((getHealthAdvice v).level = "Good" ∨ (getHealthAdvice v).level = "Moderate")) ∧
    ((getHealthAdvice v).mask = false → v ≤ 100) := by
  unfold getHealthAdvice
  split_ifs with h1 h2 h3 h4 h5 <;>
    exact ⟨by decide, fun hm => by first | linarith | simp at hm⟩

/-- Witness for C4 at v = 75. -/
theorem getHealthAdvice_mask_iff_witness :
    ((getHealthAdvice 75).mask = false ↔
      ((getHealthAdvice 75).level = "Good" ∨ (getHealthAdvice 75).level = "Moderate")) ∧
    ((getHealthAdvice 75).mask = false → (75 : ℚ) ≤ 100) :=
  getHealthAdvice_mask_iff 75

/-- The head of a cons is kept by `take 10`. -/
lemma head_mem_take_ten (a : String) (l : List String) : a ∈ (a :: l).take 10 := by
  rw [show (10 : ℕ) = 9 + 1 from rfl, List.take_succ_cons]
  exact List.mem_cons_self a _

/-- `filter (fun p => p ≠ n)` removes every occurrence of `n`. -/
lemma not_mem_filter_ne (n : String) (l : List String) :
    n ∉ l.filter (fun p => p ≠ n) := by
  simp [List.mem_filter]

/-- C5: toggling a present name removes it, toggling an absent name inserts it
at the front and truncates to 10, a double toggle restores the membership of
the toggled name, and the two concrete "Paris" scenarios hold. -/
theorem toggleFavorite_spec (L : List String) (n : String) :
    (n ∈ L → toggleFavorite n L = L.filter (fun p => p ≠ n) ∧ n ∉ toggleFavorite n L) ∧
    (n ∉ L → toggleFavorite n L = (n :: L).take 10) ∧
    (n ∈ toggleFavorite n (toggleFavorite n L) ↔ n ∈ L) ∧
    toggleFavorite "Paris" [] = ["Paris"] ∧
    toggleFavorite "Paris" ["Paris"] = [] := by
  refine ⟨?_, ?_, ?_, by decide, by decide⟩
  · intro h
    rw [toggleFavorite, if_pos h]
    exact ⟨rfl, not_mem_filter_ne n L⟩
  · intro h
    rw [toggleFavorite, if_neg h]
  · by_cases h : n ∈ L
    · have h1 : toggleFavorite n L = L.filter (fun p => p ≠ n) := by
        rw [toggleFavorite, if_pos h]
      have h2 : n ∉ toggleFavorite n L := by
        rw [h1]; exact not_mem_filter_ne n L
      rw [toggleFavorite, if_neg h2]
      simp [h, head_mem_take_ten]
    · have h1 : toggleFavorite n L = (n :: L).take 10 := by
        rw [toggleFavorite, if_neg h]
      have h2 : n ∈ toggleFavorite n L := by
        rw [h1]; exact head_mem_take_ten n L
      rw [toggleFavorite, if_pos h2]
      simp [h, not_mem_filter_ne]

/-- Witness for C5 at L = ["Paris"], n = "Paris". -/
theorem toggleFavorite_spec_witness :
    ("Paris" ∈ ["Paris"] →
      toggleFavorite "Paris" ["Paris"] = ["Paris"].filter (fun p => p ≠ "Paris") ∧
      "Paris" ∉ toggleFavorite "Paris" ["Paris"]) ∧
    ("Paris" ∉ ["Paris"] →
      toggleFavorite "Paris" ["Paris"] = ("Paris" :: ["Paris"]).take 10) ∧
    ("Paris" ∈ toggleFavorite "Paris" (toggleFavorite "Paris" ["Paris"]) ↔
      "Paris" ∈ ["Paris"]) ∧
    toggleFavorite "Paris" [] = ["Paris"] ∧
    toggleFavorite "Paris" ["Paris"] = [] :=
  toggleFavorite_spec ["Paris"] "Paris"

/-- Taking `k` of an append whose right part is already truncated to `k` is
the same as taking `k` of the plain append. -/
lemma take_append_take (xs ys : List String) (k : ℕ) :
    (xs ++ ys.take k).take k = (xs ++ ys).take k := by
  rw [List.take_append_eq_append_take, List.take_append_eq_append_take, List.take_take]
  congr 1
  rw [min_eq_left (Nat.sub_le k xs.length)]

/-- Folding `toggleFavorite` over a duplicate-free list of names none of which
is already in the accumulator prepends the names in reverse order and keeps
the first 10 entries. -/
lemma toggle_foldl_fresh (ns : List String) (acc : List String) (hnd : ns.Nodup)
    (hlen : acc.length ≤ 10) (hfresh : ∀ m ∈ ns, m ∉ acc) :
    ns.foldl (fun l m => toggleFavorite m l) acc = (ns.reverse ++ acc).take 10 := by
  induction ns generalizing acc with
  | nil => simp [List.take_of_length_le hlen]
  | cons n rest ih =>
    rw [List.foldl_cons]
    have hn : n ∉ acc := hfresh n (List.mem_cons_self n rest)
    have ht : toggleFavorite n acc = (n :: acc).take 10 := by
      rw [toggleFavorite, if_neg hn]
    have hnd' : rest.Nodup := (List.nodup_cons.mp hnd).2
    have hnmem : n ∉ rest := (List.nodup_cons.mp hnd).1
    have hlen' : ((n :: acc).take 10).length ≤ 10 := by
      simp [List.length_take]
    have hfresh' : ∀ m ∈ rest, m ∉ (n :: acc).take 10 := by
      intro m hm hmem
      have hm2 : m ∈ n :: acc := (List.take_sublist 10 (n :: acc)).subset hmem
      rcases List.mem_cons.mp hm2 with h | h
      · exact hnmem (h ▸ hm)
      · exact hfresh m (List.mem_cons_of_mem n hm) h
    rw [ht, ih ((n :: acc).take 10) hnd' hlen' hfresh', List.reverse_cons,
      List.append_assoc, take_append_take]
    rfl

/-- C6: `toggleFavorite` and `removeFavorite` preserve the no-duplicates and
at-most-10-entries invariants, and toggling 11 distinct names onto the empty
list yields the 10 most recently added names in most-recent-first order, with
the first-added name evicted. -/
theorem favorites_invariants (L : List String) (n : String) (ns : List String)
    (h1 : L.Nodup) (h2 : L.length ≤ 10) (h3 : ns.Nodup) (h4 : ns.length = 11) :
    (toggleFavorite n L).Nodup ∧ (toggleFavorite n L).length ≤ 10 ∧
    (removeFavorite n L).Nodup ∧ (removeFavorite n L).length ≤ 10 ∧
    ns.foldl (fun l m => toggleFavorite m l) [] = (ns.drop 1).reverse ∧
    (∀ x ∈ ns.take 1, x ∉ ns.foldl (fun l m => toggleFavorite m l) []) := by
  have hfold : ns.foldl (fun l m => toggleFavorite m l) [] = (ns.drop 1).reverse := by
    have h5 := toggle_foldl_fresh ns [] h3 (by simp) (by simp)
    rw [List.append_nil] at h5
    have h6 := @List.reverse_take _ ns.reverse 10
    rw [List.reverse_reverse, List.length_reverse, h4] at h6
    rw [h5, ← List.reverse_reverse (ns.reverse.take 10), h6]
  refine ⟨?_, ?_, List.Nodup.filter _ h1,
    le_trans (List.length_filter_le _ _) h2, hfold, ?_⟩
  · by_cases h : n ∈ L
    · rw [toggleFavorite, if_pos h]
      exact List.Nodup.filter _ h1
    · rw [toggleFavorite, if_neg h]
      exact (List.take_sublist 10 (n :: L)).nodup (List.nodup_cons.mpr ⟨h, h1⟩)
  · by_cases h : n ∈ L
    · rw [toggleFavorite, if_pos h]
      exact le_trans (List.length_filter_le _ _) h2
    · rw [toggleFavorite, if_neg h]
      simp [List.length_take]
  · intro x hx hmem
    have hsplit := List.take_append_drop 1 ns
    have hnd2 : (ns.take 1 ++ ns.drop 1).Nodup := by rw [hsplit]; exact h3
    rcases List.nodup_append.mp hnd2 with ⟨-, -, hdisj⟩
    rw [hfold, List.mem_reverse] at hmem
    exact hdisj hx hmem

/-- Witness for C6 at L = ["a"], n = "b" and 11 distinct names. -/
theorem favorites_invariants_witness :
    (toggleFavorite "b" ["a"]).Nodup ∧ (toggleFavorite "b" ["a"]).length ≤ 10 ∧
    (removeFavorite "b" ["a"]).Nodup ∧ (removeFavorite "b" ["a"]).length ≤ 10 ∧
    (["n1", "n2", "n3", "n4", "n5", "n6", "n7", "n8", "n9", "n10", "n11"] : List String).foldl
      (fun l m => toggleFavorite m l) [] =
      ((["n1", "n2", "n3", "n4", "n5", "n6", "n7", "n8", "n9", "n10", "n11"] : List String).drop 1).reverse ∧
    (∀ x ∈ (["n1", "n2", "n3", "n4", "n5", "n6", "n7", "n8", "n9", "n10", "n11"] : List String).take 1,
      x ∉ (["n1", "n2", "n3", "n4", "n5", "n6", "n7", "n8", "n9", "n10", "n11"] : List String).foldl
        (fun l m => toggleFavorite m l) []) :=
  favorites_invariants ["a"] "b"
    ["n1", "n2", "n3", "n4", "n5", "n6", "n7", "n8", "n9", "n10", "n11"]
    (by decide) (by decide) (by decide) (by decide)

/-- C7: the favorites initializer returns the empty list when the stored
value is missing and when parsing the stored string throws, for every parser. -/
theorem favoritesInit_fallback (parse : String → Except String Json) (s e : String)
    (h : parse s = Except.error e) :
    favoritesInit parse none = Json.arr [] ∧
    favoritesInit parse (some s) = Json.arr [] := by
  refine ⟨rfl, ?_⟩
  unfold favoritesInit
  by_cases hs : s = "" <;> simp [hs, h]

/-- Witness for C7 on the unparsable stored string "not json!". -/
theorem favoritesInit_fallback_witness :
    favoritesInit jsonParse none = Json.arr [] ∧
    favoritesInit jsonParse (some "not json!") = Json.arr [] :=
  favoritesInit_fallback jsonParse "not json!" "SyntaxError" rfl

/-- C9: for the null reading the derived advice is the neutral `none`
placeholder, the rendered level string is empty, and the estimator yields 0. -/
theorem advice_null_neutral :
    advice none = none ∧ displayedLevel none = "" ∧ getCigaretteEquivalent none = 0 :=
  ⟨rfl, rfl, rfl⟩

/-- Counterexample to C8 as stated: at index -5 the classifier returns the
"Good" band, not the no-reading placeholder (the advice is `some`, the
rendered level is non-empty); only the estimator part (0) agrees. -/
theorem negative_not_no_reading :
    (getHealthAdvice (-5)).level = "Good" ∧ (getHealthAdvice (-5)).mask = false ∧
    advice (some (-5)) = some (getHealthAdvice (-5)) ∧ advice (some (-5)) ≠ none ∧
    displayedLevel (some (-5)) ≠ "" ∧
    getCigaretteEquivalent (some (-5)) = 0 := by decide

/-- C8 amended: every negative index is classified into the lowest band
(level "Good", mask=false) rather than rejected, and the estimator yields 0. -/
theorem negative_classified_good (v : ℚ) (h : v < 0) :
    (getHealthAdvice v).level = "Good" ∧ (getHealthAdvice v).mask = false ∧
    advice (some v) = some (getHealthAdvice v) ∧
    getCigaretteEquivalent (some v) = 0 := by
  have h50 : v ≤ 50 := by linarith
  refine ⟨?_, ?_, rfl, ?_⟩
  · unfold getHealthAdvice
    rw [if_pos h50]
  · unfold getHealthAdvice
    rw [if_pos h50]
  · rw [getCigaretteEquivalent_some, if_pos h50]

/-- Witness for the amended C8 at v = -5. -/
theorem negative_classified_good_witness :
    (getHealthAdvice (-5)).level = "Good" ∧ (getHealthAdvice (-5)).mask = false ∧
    advice (some (-5)) = some (getHealthAdvice (-5)) ∧
    getCigaretteEquivalent (some (-5)) = 0 :=
  negative_classified_good (-5) (by norm_num)

/-- Counterexample to C10 as stated: on the stored string "[]" the key is
present, the string is non-empty and parsing succeeds, yet the initializer
returns the empty list (the parsed value itself). -/
theorem favoritesInit_empty_not_only_fallback :
    favoritesInit jsonParse (some "[]") = Json.arr [] ∧
    some "[]" ≠ (none : Option String) ∧ "[]" ≠ "" ∧
    jsonParse "[]" = Except.ok (Json.arr []) := by
  refine ⟨rfl, by simp, by decide, rfl⟩

/-- C10 amended: the initializer returns whatever value the parser produced,
without validating that it is a list of strings, and the empty list arises
only from a missing key, an empty stored string, a parse failure, or a parsed
value that is itself the empty list. -/
theorem favoritesInit_no_validation (parse : String → Except String Json)
    (s : String) (v : Json) (hs : s ≠ "") (hv : parse s = Except.ok v) :
    favoritesInit parse (some s) = v ∧
    (∀ raw, favoritesInit parse raw = Json.arr [] →
      raw = none ∨ raw = some "" ∨
      (∃ t e, raw = some t ∧ parse t = Except.error e) ∨
      (∃ t, raw = some t ∧ parse t = Except.ok (Json.arr []))) := by
  constructor
  · simp only [favoritesInit]
    rw [if_neg hs, hv]
  · intro raw hraw
    match raw with
    | none => exact Or.inl rfl
    | some t =>
      by_cases ht : t = ""
      · exact Or.inr (Or.inl (by rw [ht]))
      · simp only [favoritesInit] at hraw
        rw [if_neg ht] at hraw
        cases hp : parse t with
        | ok w =>
          rw [hp] at hraw
          simp at hraw
          exact Or.inr (Or.inr (Or.inr ⟨t, rfl, by rw [hp, hraw]⟩))
        | error e =>
          exact Or.inr (Or.inr (Or.inl ⟨t, e, rfl, hp⟩))

/-- Witness for the amended C10 on the stored non-list JSON string "42". -/
theorem favoritesInit_no_validation_witness :
    favoritesInit jsonParse (some "42") = Json.num 42 ∧
    (∀ raw, favoritesInit jsonParse raw = Json.arr [] →
      raw = none ∨ raw = some "" ∨
      (∃ t e, raw = some t ∧ jsonParse t = Except.error e) ∨
      (∃ t, raw = some t ∧ jsonParse t = Except.ok (Json.arr []))) :=
  favoritesInit_no_validation jsonParse "42" (Json.num 42) (by decide) rfl
